import Mathlib

/-!
Verification of the VFS passport-photo editor core (`src/app.py`) against its
natural-language specification.

The Python program is embedded shallowly:
* raster images are a width, a height and a total pixel function (`Img`);
* Python `float` arithmetic is modelled exactly over `ℚ` (floating-point
  rounding error is not modelled);
* Python `int(x)` truncation toward zero is `pyInt`, Python 3 `round`
  (banker's rounding, half to even) is `pyRound`;
* exceptions escaping `process_photo` (there is no try/except inside it)
  are modelled as explicit `PhotoFailure` error values.
-/

/-- An RGB pixel, one natural number per channel (0..255 in the program). -/
structure RGB where
  r : ℕ
  g : ℕ
  b : ℕ
deriving DecidableEq

def white : RGB := ⟨255, 255, 255⟩

def black : RGB := ⟨0, 0, 0⟩

def red : RGB := ⟨255, 0, 0⟩

def blue : RGB := ⟨0, 0, 255⟩

/-- A raster image: dimensions plus a total pixel map.  Pixels outside
`[0,width) × [0,height)` are junk values that no operation depends on. -/
structure Img where
  width : ℕ
  height : ℕ
  pix : ℕ → ℕ → RGB

/-- One normalized facial landmark, coordinates in `[0,1]` (exact rationals). -/
structure Landmark where
  x : ℚ
  y : ℚ

/-- The oracle's landmark list: 468 entries in the program, of which only
indices 10, 152, 33 and 263 are ever read; modelled as a total function. -/
def LandmarkSet := ℕ → Landmark

/-- Python `int(q)`: truncation toward zero. -/
def pyInt (q : ℚ) : ℤ :=
  if 0 ≤ q then ⌊q⌋ else ⌈q⌉

/-- Python 3 `round(q)`: round half to even (banker's rounding). -/
def pyRound (q : ℚ) : ℤ :=
  if q - ⌊q⌋ < 1/2 then ⌊q⌋
  else if 1/2 < q - ⌊q⌋ then ⌊q⌋ + 1
  else if ⌊q⌋ % 2 = 0 then ⌊q⌋ else ⌊q⌋ + 1

theorem pyInt_of_nonneg (q : ℚ) (h : 0 ≤ q) : pyInt q = ⌊q⌋ := if_pos h

theorem pyInt_nonpos {q : ℚ} (h : q ≤ 0) : pyInt q ≤ 0 := by
  unfold pyInt
  split
  · have h0 : q = 0 := le_antisymm h (by assumption)
    simp [h0]
  · exact Int.ceil_le.mpr (by exact_mod_cast h)

theorem pyRound_intCast (n : ℤ) : pyRound (n : ℚ) = n := by
  unfold pyRound
  rw [Int.floor_intCast]
  rw [if_pos (by norm_num)]

/-! ### Configuration constants (`src/app.py` lines 13-21) -/

def OUTPUT_SIZE_PX : ℕ := 600

def DPI : ℕ := 300

def HEAD_MIN_MM : ℕ := 25

def HEAD_MAX_MM : ℕ := 35

def EYE_MIN_MM : ℕ := 28

def EYE_MAX_MM : ℕ := 34

/-! ### Unit converter (`px_to_mm` / `mm_to_px`, lines 55-60) -/

/-- `px_to_mm(px) = (px / OUTPUT_SIZE_PX) * 51` (Python float, exact here). -/
def px_to_mm (px : ℚ) : ℚ := px / (OUTPUT_SIZE_PX : ℚ) * 51

/-- `mm_to_px(mm) = int(round((mm / 51) * OUTPUT_SIZE_PX))`. -/
def mm_to_px (mm : ℚ) : ℤ := pyRound (mm / 51 * (OUTPUT_SIZE_PX : ℚ))

/-! ### Geometry extractor (`get_head_and_eye_positions`, lines 37-49) -/

/-- The five pixel coordinates returned by the geometry extractor. -/
structure HeadEye where
  top : ℤ
  chin : ℤ
  eyeY : ℤ
  centerX : ℤ
  centerY : ℤ
deriving DecidableEq

/-- `get_head_and_eye_positions(landmarks, img_w, img_h)`: every coordinate is
produced with Python `int(...)`, i.e. truncation toward zero.
`center_y = int((top + chin) / 2)` uses Python true division before `int`. -/
def get_head_and_eye_positions (lms : LandmarkSet) (img_w img_h : ℕ) : HeadEye :=
  ⟨pyInt ((lms 10).y * (img_h : ℚ)),
   pyInt ((lms 152).y * (img_h : ℚ)),
   pyInt (((lms 33).y + (lms 263).y) / 2 * (img_h : ℚ)),
   pyInt (((lms 33).x + (lms 263).x) / 2 * (img_w : ℚ)),
   pyInt (((pyInt ((lms 10).y * (img_h : ℚ)) + pyInt ((lms 152).y * (img_h : ℚ)) : ℤ) : ℚ) / 2)⟩

/-- Claim C7: for every valid pixel count `px` (non-negative integer of the
calibrated 600px/51mm space), `mm_to_px (px_to_mm px)` differs from `px` by at
most 1.  In the exact-arithmetic model the round trip is in fact exact. -/
theorem C7_roundtrip_within_one (px : ℕ) :
    (mm_to_px (px_to_mm (px : ℚ)) - (px : ℤ)).natAbs ≤ 1 := by
  have harg : (px : ℚ) / (OUTPUT_SIZE_PX : ℚ) * 51 / 51 * (OUTPUT_SIZE_PX : ℚ) = (px : ℚ) := by
    unfold OUTPUT_SIZE_PX
    push_cast
    ring
  have : mm_to_px (px_to_mm (px : ℚ)) = (px : ℤ) := by
    unfold mm_to_px px_to_mm
    rw [harg]
    have hcast : ((px : ℤ) : ℚ) = (px : ℚ) := by push_cast; ring
    rw [← hcast, pyRound_intCast]
  rw [this]
  simp

/-! ### Normalizer / cropper (`process_photo`, lines 66-121) -/

/-- `cv2.resize(image_np, (w, h), interpolation=cv2.INTER_CUBIC)`.  The bicubic
resampling itself is floating-point and is not modelled faithfully (placeholder
point sampling); no claim depends on the resampled pixel values, only on the
output dimensions. -/
def cv2_resize (img : Img) (w h : ℕ) : Img :=
  ⟨w, h, fun x y => img.pix (x * img.width / w) (y * img.height / h)⟩

/-- Lines 110-120: numpy slice `scaled[ct:ct+600, cl:cl+600]` (clipped at the
array bounds), white padding when the clipped crop is smaller than 600×600
(`pad_img[:h, :w] = cropped`, content top-left aligned), and the final paste of
the crop onto a fresh white 600×600 PIL image at `(0, 0)`. -/
def crop_and_pad (scaled : Img) (ct cl : ℕ) : Img :=
  let ch := min OUTPUT_SIZE_PX (scaled.height - ct)
  let cw := min OUTPUT_SIZE_PX (scaled.width - cl)
  ⟨OUTPUT_SIZE_PX, OUTPUT_SIZE_PX, fun x y =>
    if x < cw ∧ y < ch then scaled.pix (cl + x) (ct + y) else white⟩

/-- Line 107/108: `max(0, min(v, limit - OUTPUT_SIZE_PX))`. -/
def clamp_offset (v limit : ℤ) : ℤ := max 0 (min v (limit - (OUTPUT_SIZE_PX : ℤ)))

/-- How a `process_photo` call can fail.  `noFace` is the one failure the
Python code handles itself (it returns `(None, message)`); `zeroDivision`
models the `ZeroDivisionError` raised by `scale = target_head_px / head_px`
when `head_px == 0`, and `resizeError` the `cv2.error` raised by `cv2.resize`
when a target dimension is not positive.  Those two exceptions escape
`process_photo` (there is no try/except inside it). -/
inductive PhotoFailure where
  | noFace (msg : String)
  | zeroDivision
  | resizeError
deriving DecidableEq

/-- `true` for the failures that are uncaught Python exceptions rather than
the handled `(None, message)` return. -/
def PhotoFailure.isUncaughtExn : PhotoFailure → Bool
  | .noFace _ => false
  | _ => true

/-- `process_photo(image)` (lines 66-121), with the landmark detector passed
in as an oracle.  The RGBA/white-composite preamble (lines 68-73) is the
identity on an already-opaque RGB image and is not modelled separately; the
claims quantify over RGB `Img` values. -/
def process_photo (oracle : Img → Option LandmarkSet) (image : Img) :
    Except PhotoFailure Img :=
  let img_h := image.height
  let img_w := image.width
  match oracle image with
  | none => .error (.noFace "No face detected. Please use a clear, front-facing passport-style photo!")
  | some lms =>
    let g := get_head_and_eye_positions lms img_w img_h
    let head_px : ℤ := g.chin - g.top
    if head_px = 0 then .error .zeroDivision
    else
      let target_head_px : ℤ := mm_to_px (26 : ℚ)
      let scale : ℚ := (target_head_px : ℚ) / (head_px : ℚ)
      let new_w : ℤ := pyInt ((img_w : ℚ) * scale)
      let new_h : ℤ := pyInt ((img_h : ℚ) * scale)
      if new_w ≤ 0 ∨ new_h ≤ 0 then .error .resizeError
      else
        let scaled := cv2_resize image new_w.toNat new_h.toNat
        let eye_y_scaled : ℚ := (g.eyeY : ℚ) * scale
        let cx_scaled : ℚ := (g.centerX : ℚ) * scale
        let desired_eye_y : ℤ := (OUTPUT_SIZE_PX : ℤ) - mm_to_px (((EYE_MIN_MM + EYE_MAX_MM) / 2 : ℕ) : ℚ)
        let crop_top : ℤ := pyInt (eye_y_scaled - (desired_eye_y : ℚ))
        let crop_left : ℤ := pyInt (cx_scaled - ((OUTPUT_SIZE_PX / 2 : ℕ) : ℚ))
        let ct := clamp_offset crop_top new_h
        let cl := clamp_offset crop_left new_w
        .ok (crop_and_pad scaled ct.toNat cl.toNat)

/-- The head height `chin - top` that `process_photo` computes for a given
oracle answer, before scaling. -/
def head_px_of (lms : LandmarkSet) (img : Img) : ℤ :=
  (get_head_and_eye_positions lms img.width img.height).chin -
    (get_head_and_eye_positions lms img.width img.height).top

theorem mm_to_px_26 : mm_to_px 26 = 306 := by
  norm_num [mm_to_px, pyRound, OUTPUT_SIZE_PX]

/-- Claim C2: `process_photo` fails with the (non-empty) no-face message iff
the landmark oracle returns no landmarks, and in that case no image at all is
produced. -/
theorem C2_no_face_iff_oracle_none (oracle : Img → Option LandmarkSet) (img : Img) :
    ((∃ msg, process_photo oracle img = .error (.noFace msg) ∧ msg ≠ "") ↔
        oracle img = none) ∧
    (oracle img = none → ∀ out, process_photo oracle img ≠ .ok out) := by
  cases ho : oracle img with
  | none =>
      refine ⟨⟨fun _ => rfl, fun _ => ?_⟩, fun _ out => ?_⟩
      · exact ⟨"No face detected. Please use a clear, front-facing passport-style photo!",
          by simp [process_photo, ho], by decide⟩
      · simp [process_photo, ho]
  | some lms =>
      refine ⟨⟨?_, fun h => Option.noConfusion h⟩, fun h => Option.noConfusion h⟩
      rintro ⟨msg, hmsg, -⟩
      simp only [process_photo, ho] at hmsg
      split_ifs at hmsg <;> simp at hmsg

def oracle_none : Img → Option LandmarkSet := fun _ => none

def img_one : Img := ⟨1, 1, fun _ _ => white⟩

theorem C2_witness :
    ((∃ msg, process_photo oracle_none img_one = .error (.noFace msg) ∧ msg ≠ "") ↔
        oracle_none img_one = none) ∧
    (oracle_none img_one = none → ∀ out, process_photo oracle_none img_one ≠ .ok out) :=
  C2_no_face_iff_oracle_none oracle_none img_one

/-! ### Claim C1: degenerate head geometry -/

/-- Landmark set whose head-top and chin coincide, so `head_px = 0`. -/
def lms_flat : LandmarkSet := fun _ => ⟨1/2, 1/2⟩

def oracle_flat : Img → Option LandmarkSet := fun _ => some lms_flat

def img_ten : Img := ⟨10, 10, fun _ _ => white⟩

theorem head_eye_flat : get_head_and_eye_positions lms_flat 10 10 = ⟨5, 5, 5, 5, 5⟩ := by
  unfold get_head_and_eye_positions lms_flat
  norm_num [pyInt]

/-- Claim C1 is false as stated: on an input whose computed head height is 0,
`process_photo` does not fail with a `DegenerateGeometry` error (no such error
exists anywhere in the code); instead the statement
`scale = target_head_px / head_px` raises an uncaught `ZeroDivisionError`,
modelled as the `zeroDivision` failure. -/
theorem C1_counterexample :
    head_px_of lms_flat img_ten = 0 ∧
    process_photo oracle_flat img_ten = .error .zeroDivision ∧
    PhotoFailure.zeroDivision.isUncaughtExn = true := by
  have hw : img_ten.width = 10 := rfl
  have hh : img_ten.height = 10 := rfl
  refine ⟨?_, ?_, rfl⟩
  · unfold head_px_of
    rw [hw, hh, head_eye_flat]
    decide
  · simp only [process_photo, oracle_flat, hw, hh, head_eye_flat]
    norm_num

/-- Claim C1 (amended): whenever the landmark oracle answers and the computed
head height `chin - top` is `≤ 0`, `process_photo` produces no output image,
but by raising an uncaught exception — `ZeroDivisionError` when the head
height is exactly 0, or a `cv2.resize` error when it is negative (the scaled
target dimensions are then non-positive) — not by a `DegenerateGeometry`
error, which does not exist in the code. -/
theorem C1_degenerate_amended (oracle : Img → Option LandmarkSet) (img : Img)
    (lms : LandmarkSet) (ho : oracle img = some lms)
    (hdeg : head_px_of lms img ≤ 0) :
    process_photo oracle img = .error .zeroDivision ∨
      process_photo oracle img = .error .resizeError := by
  unfold head_px_of at hdeg
  by_cases h0 : (get_head_and_eye_positions lms img.width img.height).chin -
      (get_head_and_eye_positions lms img.width img.height).top = 0
  · left
    simp only [process_photo, ho, if_pos h0]
  · right
    have hlt : (get_head_and_eye_positions lms img.width img.height).chin -
        (get_head_and_eye_positions lms img.width img.height).top < 0 :=
      lt_of_le_of_ne hdeg h0
    have hscale : ((mm_to_px (26 : ℚ) : ℤ) : ℚ) /
        (((get_head_and_eye_positions lms img.width img.height).chin -
          (get_head_and_eye_positions lms img.width img.height).top : ℤ) : ℚ) ≤ 0 := by
      apply le_of_lt
      apply div_neg_of_pos_of_neg
      · rw [mm_to_px_26]; norm_num
      · exact_mod_cast hlt
    have hnw : pyInt ((img.width : ℚ) *
        (((mm_to_px (26 : ℚ) : ℤ) : ℚ) /
          (((get_head_and_eye_positions lms img.width img.height).chin -
            (get_head_and_eye_positions lms img.width img.height).top : ℤ) : ℚ))) ≤ 0 := by
      apply pyInt_nonpos
      exact mul_nonpos_of_nonneg_of_nonpos (by positivity) hscale
    simp only [process_photo, ho, if_neg h0, if_pos (Or.inl hnw)]

/-- Landmark set with an inverted head: chin strictly above the top point. -/
def lms_inverted : LandmarkSet := fun i => if i = 152 then ⟨1/2, 1/10⟩ else ⟨1/2, 9/10⟩

def oracle_inverted : Img → Option LandmarkSet := fun _ => some lms_inverted

theorem C1_witness :
    process_photo oracle_inverted img_ten = .error .zeroDivision ∨
      process_photo oracle_inverted img_ten = .error .resizeError := by
  apply C1_degenerate_amended oracle_inverted img_ten lms_inverted rfl
  unfold head_px_of
  have hw : img_ten.width = 10 := rfl
  have hh : img_ten.height = 10 := rfl
  rw [hw, hh]
  have : get_head_and_eye_positions lms_inverted 10 10 =
      ⟨9, 1, 9, 5, 5⟩ := by
    unfold get_head_and_eye_positions lms_inverted
    norm_num [pyInt]
  rw [this]
  norm_num

/-- Claim C3: after clamping, the crop offset lies in `[0, resized - 600]`
whenever the resized dimension is at least 600, and is 0 when the resized
dimension is below 600; the crop-and-pad result is always 600×600, with the
(possibly clipped) crop content placed top-left aligned and the shortfall
filled white; and consequently every successful `process_photo` output is a
600×600 image. -/
theorem C3_crop_clamp_invariant :
    (∀ v limit : ℤ, 600 ≤ limit →
      0 ≤ clamp_offset v limit ∧ clamp_offset v limit ≤ limit - 600) ∧
    (∀ v limit : ℤ, limit < 600 → clamp_offset v limit = 0) ∧
    (∀ (scaled : Img) (ct cl : ℕ),
      (crop_and_pad scaled ct cl).width = 600 ∧
      (crop_and_pad scaled ct cl).height = 600 ∧
      (∀ x y : ℕ, x < min 600 (scaled.width - cl) → y < min 600 (scaled.height - ct) →
        (crop_and_pad scaled ct cl).pix x y = scaled.pix (cl + x) (ct + y)) ∧
      (∀ x y : ℕ, min 600 (scaled.width - cl) ≤ x ∨ min 600 (scaled.height - ct) ≤ y →
        (crop_and_pad scaled ct cl).pix x y = white)) ∧
    (∀ (oracle : Img → Option LandmarkSet) (img out : Img),
      process_photo oracle img = Except.ok out → out.width = 600 ∧ out.height = 600) := by
  refine ⟨?_, ?_, ?_, ?_⟩
  · intro v limit h
    unfold clamp_offset OUTPUT_SIZE_PX
    omega
  · intro v limit h
    unfold clamp_offset OUTPUT_SIZE_PX
    omega
  · intro scaled ct cl
    refine ⟨rfl, rfl, ?_, ?_⟩
    · intro x y hx hy
      simp only [crop_and_pad, OUTPUT_SIZE_PX] at hx hy ⊢
      rw [if_pos ⟨hx, hy⟩]
    · intro x y hxy
      simp only [crop_and_pad, OUTPUT_SIZE_PX] at hxy ⊢
      rw [if_neg (by omega)]
  · intro oracle img out h
    cases ho : oracle img with
    | none => simp [process_photo, ho] at h
    | some lms =>
        simp only [process_photo, ho] at h
        split_ifs at h with h1 h2
        rw [Except.ok.injEq] at h
        rw [← h]
        exact ⟨rfl, rfl⟩

theorem C3_witness :
    (0 ≤ clamp_offset 1000 700 ∧ clamp_offset 1000 700 ≤ 700 - 600) ∧
    clamp_offset (-5) 300 = 0 :=
  ⟨C3_crop_clamp_invariant.1 1000 700 (by norm_num),
   C3_crop_clamp_invariant.2.1 (-5) 300 (by norm_num)⟩

/-! ### Claim C4: the extractor truncates, it does not round -/

/-- Landmark set all of whose coordinates are `0.17`, so that `0.17 * 10 = 1.7`
separates truncation (1) from rounding to nearest (2). -/
def lms_017 : LandmarkSet := fun _ => ⟨17/100, 17/100⟩

/-- Claim C4 is false as stated: on a 10×10 image with `landmark[10].y = 0.17`
the extractor returns `top = int(1.7) = 1`, while rounding to the nearest
integer (Python `round`, and any other tie rule — 1.7 is not a tie) gives 2. -/
theorem C4_counterexample :
    (get_head_and_eye_positions lms_017 10 10).top = 1 ∧
    pyRound ((lms_017 10).y * ((10 : ℕ) : ℚ)) = 2 ∧
    (get_head_and_eye_positions lms_017 10 10).top ≠
      pyRound ((lms_017 10).y * ((10 : ℕ) : ℚ)) := by
  have hg : get_head_and_eye_positions lms_017 10 10 = ⟨1, 1, 1, 1, 1⟩ := by
    unfold get_head_and_eye_positions lms_017
    norm_num [pyInt]
  have hr : pyRound ((lms_017 10).y * ((10 : ℕ) : ℚ)) = 2 := by
    unfold lms_017
    norm_num [pyRound]
  refine ⟨by rw [hg], hr, by rw [hg, hr]; decide⟩

/-- Claim C4 (amended): each extractor coordinate is produced by Python `int`
truncation, which on the non-negative normalized landmark coordinates equals
the floor: `top = ⌊lm10.y * h⌋`, `chin = ⌊lm152.y * h⌋`,
`eyeY = ⌊(lm33.y + lm263.y)/2 * h⌋`, `centerX = ⌊(lm33.x + lm263.x)/2 * w⌋`
and `centerY = ⌊(top + chin)/2⌋` — not rounding to the nearest integer. -/
theorem C4_extractor_floor (lms : LandmarkSet) (w h : ℕ)
    (h10 : 0 ≤ (lms 10).y) (h152 : 0 ≤ (lms 152).y)
    (h33y : 0 ≤ (lms 33).y) (h263y : 0 ≤ (lms 263).y)
    (h33x : 0 ≤ (lms 33).x) (h263x : 0 ≤ (lms 263).x) :
    get_head_and_eye_positions lms w h =
      { top := ⌊(lms 10).y * (h : ℚ)⌋,
        chin := ⌊(lms 152).y * (h : ℚ)⌋,
        eyeY := ⌊((lms 33).y + (lms 263).y) / 2 * (h : ℚ)⌋,
        centerX := ⌊((lms 33).x + (lms 263).x) / 2 * (w : ℚ)⌋,
        centerY := ⌊((⌊(lms 10).y * (h : ℚ)⌋ + ⌊(lms 152).y * (h : ℚ)⌋ : ℤ) : ℚ) / 2⌋ } := by
  have e1 : pyInt ((lms 10).y * (h : ℚ)) = ⌊(lms 10).y * (h : ℚ)⌋ :=
    pyInt_of_nonneg _ (mul_nonneg h10 (by positivity))
  have e2 : pyInt ((lms 152).y * (h : ℚ)) = ⌊(lms 152).y * (h : ℚ)⌋ :=
    pyInt_of_nonneg _ (mul_nonneg h152 (by positivity))
  have e3 : pyInt (((lms 33).y + (lms 263).y) / 2 * (h : ℚ)) =
      ⌊((lms 33).y + (lms 263).y) / 2 * (h : ℚ)⌋ :=
    pyInt_of_nonneg _ (mul_nonneg (by positivity) (by positivity))
  have e4 : pyInt (((lms 33).x + (lms 263).x) / 2 * (w : ℚ)) =
      ⌊((lms 33).x + (lms 263).x) / 2 * (w : ℚ)⌋ :=
    pyInt_of_nonneg _ (mul_nonneg (by positivity) (by positivity))
  have htop : (0 : ℤ) ≤ ⌊(lms 10).y * (h : ℚ)⌋ :=
    Int.le_floor.mpr (by push_cast; exact mul_nonneg h10 (by positivity))
  have hchin : (0 : ℤ) ≤ ⌊(lms 152).y * (h : ℚ)⌋ :=
    Int.le_floor.mpr (by push_cast; exact mul_nonneg h152 (by positivity))
  have e5 : pyInt ((((⌊(lms 10).y * (h : ℚ)⌋ + ⌊(lms 152).y * (h : ℚ)⌋ : ℤ)) : ℚ) / 2) =
      ⌊((⌊(lms 10).y * (h : ℚ)⌋ + ⌊(lms 152).y * (h : ℚ)⌋ : ℤ) : ℚ) / 2⌋ := by
    apply pyInt_of_nonneg
    have t1 : (0 : ℚ) ≤ ((⌊(lms 10).y * (h : ℚ)⌋ : ℤ) : ℚ) := by exact_mod_cast htop
    have t2 : (0 : ℚ) ≤ ((⌊(lms 152).y * (h : ℚ)⌋ : ℤ) : ℚ) := by exact_mod_cast hchin
    push_cast
    push_cast at t1 t2
    linarith
  unfold get_head_and_eye_positions
  rw [e1, e2, e3, e4, e5]

def lms_good : LandmarkSet := fun _ => ⟨1/4, 1/3⟩

theorem C4_witness :
    get_head_and_eye_positions lms_good 9 7 =
      { top := ⌊(lms_good 10).y * ((7 : ℕ) : ℚ)⌋,
        chin := ⌊(lms_good 152).y * ((7 : ℕ) : ℚ)⌋,
        eyeY := ⌊((lms_good 33).y + (lms_good 263).y) / 2 * ((7 : ℕ) : ℚ)⌋,
        centerX := ⌊((lms_good 33).x + (lms_good 263).x) / 2 * ((9 : ℕ) : ℚ)⌋,
        centerY := ⌊((⌊(lms_good 10).y * ((7 : ℕ) : ℚ)⌋ +
          ⌊(lms_good 152).y * ((7 : ℕ) : ℚ)⌋ : ℤ) : ℚ) / 2⌋ } :=
  C4_extractor_floor lms_good 9 7 (by norm_num [lms_good]) (by norm_num [lms_good])
    (by norm_num [lms_good]) (by norm_num [lms_good]) (by norm_num [lms_good])
    (by norm_num [lms_good])

/-! ### Overlay renderer (`add_measurement_overlay`, lines 127-152) -/

/-- A PIL `draw.line` of a horizontal segment from `(x0, y)` to `(x1, y)` with
`width=2` (the only width the program uses): Pillow's wide-line polygon covers
the pixel rows `y` and `y + 1` and the columns between the endpoints
inclusive.  Out-of-canvas coordinates are simply never read back. -/
def draw_hline_w2 (img : Img) (x0 x1 y : ℤ) (c : RGB) : Img :=
  ⟨img.width, img.height, fun px py =>
    if min x0 x1 ≤ (px : ℤ) ∧ (px : ℤ) ≤ max x0 x1 ∧ y ≤ (py : ℤ) ∧ (py : ℤ) ≤ y + 1
    then c else img.pix px py⟩

/-- `eye_y = (left_eye + right_eye) // 2` of lines 145-147 (Python floor
division; Lean `/` on `ℤ` agrees with it for the positive divisor 2). -/
def eye_line_y (lms : LandmarkSet) (img_h : ℕ) : ℤ :=
  (pyInt ((lms 33).y * (img_h : ℚ)) + pyInt ((lms 263).y * (img_h : ℚ))) / 2

/-- `add_measurement_overlay(image, landmarks, img_h, img_w)` (lines 127-152).
`ImageDraw.Draw(image)` draws IN PLACE on the `image` argument and the
function returns that same object, so the result is modelled as the pair
(final state of the `image` argument, returned image) — equal by
construction.  The two `draw.text` label calls touch pixels in a
font-dependent way and are modelled as leaving the pixel grid unchanged
(no claim depends on label pixels; modelling them would only make the
mutation larger). -/
def add_measurement_overlay (image : Img) (lms : LandmarkSet) (img_h img_w : ℕ) :
    Img × Img :=
  let top := pyInt ((lms 10).y * (img_h : ℚ))
  let chin := pyInt ((lms 152).y * (img_h : ℚ))
  let i1 := draw_hline_w2 image (((img_w / 2 : ℕ) : ℤ) - 60) (((img_w / 2 : ℕ) : ℤ) + 60) top red
  let i2 := draw_hline_w2 i1 (((img_w / 2 : ℕ) : ℤ) - 60) (((img_w / 2 : ℕ) : ℤ) + 60) chin red
  let i3 := draw_hline_w2 i2 0 (img_w : ℤ) (eye_line_y lms img_h) blue
  (i3, i3)

/-- The caller fragment at lines 215-221: `preview_img = processed_img.copy()`
followed by the overlay on the copy when landmarks are found.  Returns
(the saved `processed_img`, the preview image).  The copy is a distinct
buffer, so the in-place drawing mutates only the copy. -/
def preview_step (processed : Img) (lmso : Option LandmarkSet) : Img × Img :=
  match lmso with
  | some lms =>
      (processed, (add_measurement_overlay processed lms processed.height processed.width).2)
  | none => (processed, processed)

def img_white600 : Img := ⟨600, 600, fun _ _ => white⟩

theorem eye_line_y_flat : eye_line_y lms_flat 600 = 300 := by
  unfold eye_line_y lms_flat
  norm_num [pyInt]

/-- Claim C6 is false as stated: `add_measurement_overlay` does NOT draw on a
copy — `ImageDraw.Draw(image)` mutates its input image argument in place.  On
an all-white 600×600 input with every landmark at `(0.5, 0.5)`, the pixel at
`(300, 300)` of the argument's final state is the (blue) eye-line, no longer
the original white. -/
theorem C6_counterexample :
    (add_measurement_overlay img_white600 lms_flat 600 600).1.pix 300 300 ≠
      img_white600.pix 300 300 := by
  simp only [add_measurement_overlay, draw_hline_w2, eye_line_y_flat]
  rw [if_pos (by norm_num)]
  decide

/-- Claim C6 (amended): `add_measurement_overlay` draws the guide lines in
place on its input image argument and returns that same mutated image (the
eye-line pixels of the final argument state are blue); the caller protects the
calibrated output by passing a copy (`preview_img = processed_img.copy()`), so
the `processed_img` used for saving/printing is never mutated by rendering the
overlay. -/
theorem C6_overlay_in_place (img : Img) (lms : LandmarkSet) (img_h img_w : ℕ) :
    (add_measurement_overlay img lms img_h img_w).2 =
      (add_measurement_overlay img lms img_h img_w).1 ∧
    (∀ lmso, (preview_step img lmso).1 = img) ∧
    (∀ x y : ℕ, (x : ℤ) ≤ (img_w : ℤ) → eye_line_y lms img_h ≤ (y : ℤ) →
      (y : ℤ) ≤ eye_line_y lms img_h + 1 →
      (add_measurement_overlay img lms img_h img_w).1.pix x y = blue) := by
  refine ⟨rfl, fun lmso => by cases lmso <;> rfl, ?_⟩
  intro x y hx h1 h2
  simp only [add_measurement_overlay, draw_hline_w2]
  exact if_pos ⟨le_trans (min_le_left _ _) (by positivity),
    le_trans hx (le_max_right _ _), h1, h2⟩

theorem C6_witness :
    (add_measurement_overlay img_white600 lms_flat 600 600).1.pix 0 300 = blue ∧
    (preview_step img_white600 (some lms_flat)).1 = img_white600 := by
  refine ⟨C6_overlay_in_place img_white600 lms_flat 600 600 |>.2.2 0 300 (by norm_num)
    (by rw [eye_line_y_flat]; norm_num) (by rw [eye_line_y_flat]; norm_num),
    C6_overlay_in_place img_white600 lms_flat 600 600 |>.2.1 (some lms_flat)⟩

/-! ### Sheet compositor (`create_4x6_image`, lines 258-284) -/

/-- PIL `canvas.paste(tile, (px, py))`: inside the pasted rectangle the tile's
pixels replace the canvas's; the canvas keeps its own dimensions (PIL clips
the paste at the canvas border, which in this model just means out-of-canvas
pixels are never read back). -/
def paste_onto (canvas tile : Img) (px py : ℕ) : Img :=
  ⟨canvas.width, canvas.height, fun x y =>
    if px ≤ x ∧ x < px + tile.width ∧ py ≤ y ∧ y < py + tile.height
    then tile.pix (x - px) (y - py) else canvas.pix x y⟩

theorem paste_onto_pix_in (canvas tile : Img) (px py x y : ℕ)
    (h : px ≤ x ∧ x < px + tile.width ∧ py ≤ y ∧ y < py + tile.height) :
    (paste_onto canvas tile px py).pix x y = tile.pix (x - px) (y - py) := if_pos h

theorem paste_onto_pix_out (canvas tile : Img) (px py x y : ℕ)
    (h : ¬(px ≤ x ∧ x < px + tile.width ∧ py ≤ y ∧ y < py + tile.height)) :
    (paste_onto canvas tile px py).pix x y = canvas.pix x y := if_neg h

/-- The six fixed paste positions (lines 274-278). -/
def tile_positions : List (ℕ × ℕ) :=
  [(0, 0), (600, 0), (0, 600), (600, 600), (0, 1200), (600, 1200)]

/-- `image.resize((600, 600))` (line 265).  Pillow returns a plain copy when
the size already matches, which is the only case the claims exercise; the
resampling for other sizes is floating-point and modelled by placeholder
point sampling. -/
def pil_resize_600 (image : Img) : Img :=
  if image.width = 600 ∧ image.height = 600 then image
  else ⟨600, 600, fun x y => image.pix (x * image.width / 600) (y * image.height / 600)⟩

/-- Lines 269-271: a black `(600+2t)×(600+2t)` canvas with the tile pasted at
offset `(t, t)`. -/
def add_border_tile (image : Img) (t : ℕ) : Img :=
  paste_onto ⟨600 + 2 * t, 600 + 2 * t, fun _ _ => black⟩ image t t

/-- `create_4x6_image(image, add_border, border_thickness)` (lines 258-284):
a white 1200×1800 canvas, the (possibly bordered) tile pasted at the six
fixed positions in list order, later pastes overwriting earlier ones. -/
def create_4x6_image (image : Img) (add_border : Bool) (border_thickness : ℕ) : Img :=
  let canvas : Img := ⟨1200, 1800, fun _ _ => white⟩
  let image1 := pil_resize_600 image
  let image2 := cond add_border (add_border_tile image1 border_thickness) image1
  tile_positions.foldl (fun c p => paste_onto c image2 p.1 p.2) canvas

/-- At each of the six positions, the top-left 600×600 block of the pasted
tile is what the finished sheet shows (no later paste reaches back into it,
because the positions advance by at least 600). -/
theorem six_paste_pix (canvas tile : Img) (hwge : 600 ≤ tile.width)
    (hhge : 600 ≤ tile.height) (p : ℕ × ℕ) (hp : p ∈ tile_positions) (x y : ℕ)
    (hx : x < 600) (hy : y < 600) :
    (tile_positions.foldl (fun c q => paste_onto c tile q.1 q.2) canvas).pix
        (p.1 + x) (p.2 + y) = tile.pix x y := by
  simp only [tile_positions, List.mem_cons, List.not_mem_nil, or_false] at hp
  simp only [tile_positions, List.foldl_cons, List.foldl_nil]
  rcases hp with rfl | rfl | rfl | rfl | rfl | rfl <;>
    simp only [paste_onto] <;>
    split_ifs <;>
    first
      | omega
      | simp

/-- The complement: a sheet pixel inside the canvas that no paste rectangle
covers still shows the white canvas. -/
theorem six_paste_pix_white (canvas tile : Img) (x y : ℕ)
    (hnone : ∀ p ∈ tile_positions,
      ¬(p.1 ≤ x ∧ x < p.1 + tile.width ∧ p.2 ≤ y ∧ y < p.2 + tile.height)) :
    (tile_positions.foldl (fun c q => paste_onto c tile q.1 q.2) canvas).pix x y =
      canvas.pix x y := by
  have h1 := hnone (0, 0) (by simp [tile_positions])
  have h2 := hnone (600, 0) (by simp [tile_positions])
  have h3 := hnone (0, 600) (by simp [tile_positions])
  have h4 := hnone (600, 600) (by simp [tile_positions])
  have h5 := hnone (0, 1200) (by simp [tile_positions])
  have h6 := hnone (600, 1200) (by simp [tile_positions])
  simp only [tile_positions, List.foldl_cons, List.foldl_nil]
  rw [paste_onto_pix_out _ _ _ _ _ _ h6, paste_onto_pix_out _ _ _ _ _ _ h5,
    paste_onto_pix_out _ _ _ _ _ _ h4, paste_onto_pix_out _ _ _ _ _ _ h3,
    paste_onto_pix_out _ _ _ _ _ _ h2, paste_onto_pix_out _ _ _ _ _ _ h1]

/-- Claim C8: with `addBorder = false` the sheet is a 1200×1800 canvas with
the 600×600 tile pixel-for-pixel at the six fixed offsets, and (vacuously —
the six tiles exactly cover the canvas) white wherever no tile lies. -/
theorem C8_sheet_no_border (tile : Img) (hw : tile.width = 600)
    (hh : tile.height = 600) (t : ℕ) :
    (create_4x6_image tile false t).width = 1200 ∧
    (create_4x6_image tile false t).height = 1800 ∧
    (∀ p ∈ tile_positions, ∀ x y : ℕ, x < 600 → y < 600 →
      (create_4x6_image tile false t).pix (p.1 + x) (p.2 + y) = tile.pix x y) ∧
    (∀ x y : ℕ, x < 1200 → y < 1800 →
      (∀ p ∈ tile_positions, ¬(p.1 ≤ x ∧ x < p.1 + 600 ∧ p.2 ≤ y ∧ y < p.2 + 600)) →
      (create_4x6_image tile false t).pix x y = white) := by
  have hres : pil_resize_600 tile = tile := by
    unfold pil_resize_600
    rw [if_pos ⟨hw, hh⟩]
  have hc : create_4x6_image tile false t =
      tile_positions.foldl (fun c q => paste_onto c tile q.1 q.2)
        ⟨1200, 1800, fun _ _ => white⟩ := by
    unfold create_4x6_image
    rw [hres]
    rfl
  refine ⟨by rw [hc]; rfl, by rw [hc]; rfl, ?_, ?_⟩
  · intro p hp x y hx hy
    rw [hc]
    exact six_paste_pix _ tile (by omega) (by omega) p hp x y hx hy
  · intro x y _ _ hnone
    rw [hc]
    rw [six_paste_pix_white _ tile x y (by rw [hw, hh]; exact hnone)]

theorem C8_witness :
    (create_4x6_image img_white600 false 5).width = 1200 ∧
    (create_4x6_image img_white600 false 5).pix (600 + 7) (1200 + 8) =
      img_white600.pix 7 8 :=
  ⟨(C8_sheet_no_border img_white600 rfl rfl 5).1,
   (C8_sheet_no_border img_white600 rfl rfl 5).2.2.1 (600, 1200)
     (by simp [tile_positions]) 7 8 (by decide) (by decide)⟩

/-- Claim C5: with `addBorder = true` and thickness `t`, the tile is first
inflated onto a `(600+2t)×(600+2t)` black canvas with the tile at offset
`(t,t)`; that inflated tile is pasted at the same six fixed positions; and
since the positions still advance by only 600, a later tile's border
overwrites `t` columns of its left neighbour's photo content (those sheet
pixels are black although they lie inside the neighbour's content region). -/
theorem C5_sheet_with_border (tile : Img) (hw : tile.width = 600)
    (hh : tile.height = 600) (t : ℕ) (ht0 : 0 < t) (ht : t ≤ 600) :
    (add_border_tile tile t).width = 600 + 2 * t ∧
    (add_border_tile tile t).height = 600 + 2 * t ∧
    (∀ x y : ℕ, (add_border_tile tile t).pix x y =
      if t ≤ x ∧ x < t + 600 ∧ t ≤ y ∧ y < t + 600
      then tile.pix (x - t) (y - t) else black) ∧
    (∀ p ∈ tile_positions, ∀ x y : ℕ, x < 600 → y < 600 →
      (create_4x6_image tile true t).pix (p.1 + x) (p.2 + y) =
        (add_border_tile tile t).pix x y) ∧
    (∀ x y : ℕ, 600 ≤ x → x < 600 + t → t ≤ y → y < 600 →
      (create_4x6_image tile true t).pix x y = black) := by
  have hres : pil_resize_600 tile = tile := by
    unfold pil_resize_600
    rw [if_pos ⟨hw, hh⟩]
  have hc : create_4x6_image tile true t =
      tile_positions.foldl (fun c q => paste_onto c (add_border_tile tile t) q.1 q.2)
        ⟨1200, 1800, fun _ _ => white⟩ := by
    unfold create_4x6_image
    rw [hres]
    rfl
  have hbw : (add_border_tile tile t).width = 600 + 2 * t := rfl
  have hbh : (add_border_tile tile t).height = 600 + 2 * t := rfl
  have hbpix : ∀ x y : ℕ, (add_border_tile tile t).pix x y =
      if t ≤ x ∧ x < t + 600 ∧ t ≤ y ∧ y < t + 600
      then tile.pix (x - t) (y - t) else black := by
    intro x y
    unfold add_border_tile paste_onto
    rw [hw, hh]
  refine ⟨hbw, hbh, hbpix, ?_, ?_⟩
  · intro p hp x y hx hy
    rw [hc]
    exact six_paste_pix _ _ (by rw [hbw]; omega) (by rw [hbh]; omega) p hp x y hx hy
  · intro x y hx1 hx2 hy1 hy2
    rw [hc]
    simp only [tile_positions, List.foldl_cons, List.foldl_nil]
    rw [paste_onto_pix_out _ _ _ _ _ _ (by rw [hbw, hbh]; omega),
      paste_onto_pix_out _ _ _ _ _ _ (by rw [hbw, hbh]; omega),
      paste_onto_pix_out _ _ _ _ _ _ (by rw [hbw, hbh]; omega),
      paste_onto_pix_out _ _ _ _ _ _ (by rw [hbw, hbh]; omega),
      paste_onto_pix_in _ _ _ _ _ _ (by rw [hbw, hbh]; omega)]
    rw [hbpix]
    rw [if_neg (by omega)]

theorem C5_witness :
    (create_4x6_image img_white600 true 5).pix (600 + 3) (0 + 4) =
      (add_border_tile img_white600 5).pix 3 4 ∧
    (create_4x6_image img_white600 true 5).pix 602 100 = black :=
  ⟨(C5_sheet_with_border img_white600 rfl rfl 5 (by decide) (by decide)).2.2.2.1
     (600, 0) (by simp [tile_positions]) 3 4 (by decide) (by decide),
   (C5_sheet_with_border img_white600 rfl rfl 5 (by decide) (by decide)).2.2.2.2
     602 100 (by decide) (by decide) (by decide) (by decide)⟩

/-- The synthetic landmark set of claim C9: only indices 10, 152, 33 and 263
carry the prescribed values. -/
def lmsC9 : LandmarkSet := fun i =>
  if i = 10 then ⟨0, 1/10⟩
  else if i = 152 then ⟨0, 9/10⟩
  else if i = 33 then ⟨2/5, 3/10⟩
  else if i = 263 then ⟨3/5, 3/10⟩
  else ⟨0, 0⟩

/-- Claim C9: on the synthetic landmark set with `lm10.y = 0.1`,
`lm152.y = 0.9`, `lm33 = (0.4, 0.3)`, `lm263 = (0.6, 0.3)` and a 1000×1000
image, the geometry extractor returns `top = 100`, `chin = 900`, `eyeY = 300`,
`centerX = 500`, `centerY = 500`. -/
theorem C9_synthetic_geometry :
    get_head_and_eye_positions lmsC9 1000 1000 =
      { top := 100, chin := 900, eyeY := 300, centerX := 500, centerY := 500 } := by
  have h10 : lmsC9 10 = ⟨0, 1/10⟩ := rfl
  have h152 : lmsC9 152 = ⟨0, 9/10⟩ := rfl
  have h33 : lmsC9 33 = ⟨2/5, 3/10⟩ := rfl
  have h263 : lmsC9 263 = ⟨3/5, 3/10⟩ := rfl
  unfold get_head_and_eye_positions
  rw [h10, h152, h33, h263]
  norm_num [pyInt]

/-! ### Soft warning checks (`check_warnings`, lines 158-172) -/

/-- Finite sum `f 0 + f 1 + ... + f (n-1)`. -/
def sumN : ℕ → (ℕ → ℕ) → ℕ
  | 0, _ => 0
  | n + 1, f => sumN n f + f n

/-- `cv2.cvtColor(np_img, cv2.COLOR_RGB2GRAY)` on 8-bit pixels: OpenCV's
fixed-point formula `(R*4899 + G*9617 + B*1868 + 8192) >> 14` (the coefficients
are 0.299, 0.587 and 0.114 scaled by 2^14, descaled with rounding). -/
def cv_gray (c : RGB) : ℕ := (c.r * 4899 + c.g * 9617 + c.b * 1868 + 8192) / 16384

def gray_at (img : Img) (x y : ℕ) : ℕ := cv_gray (img.pix x y)

def attire_warning : String := "Attire may be too white (bottom of image is very light)."

def contrast_warning : String := "High contrast: There may be distracting shadows or lighting."

/-- Sum of the grayscale values of `gray[-80:, :]` — the bottom `min 80 H`
pixel rows (numpy's negative slice start clips at the top for short images). -/
def bottom_sum (img : Img) : ℕ :=
  sumN (min 80 img.height) (fun i =>
    sumN img.width (fun x => gray_at img x (img.height - min 80 img.height + i)))

/-- Sum of all grayscale values of the image. -/
def gray_total (img : Img) : ℕ :=
  sumN img.height (fun y => sumN img.width (fun x => gray_at img x y))

/-- Sum of the squares of all grayscale values of the image. -/
def gray_sq_total (img : Img) : ℕ :=
  sumN img.height (fun y => sumN img.width (fun x => gray_at img x y * gray_at img x y))

/-- `check_warnings(pil_img)` (lines 158-172).  `np.mean(bottom_roi) > 220` is
the exact rational comparison `bottom_sum / count > 220`; `np.std(gray) > 60`
is equivalent to `variance > 3600` (both sides of the original comparison are
non-negative, and squaring is monotone there), with
`variance = mean of squares - (mean)^2`.  The function never writes to the
image (`np.array` copies), so it returns its input unchanged alongside the
warning list `w1 ++ w2`. -/
def check_warnings (img : Img) : List String × Img :=
  let w1 : List String :=
    if (220 : ℚ) < (bottom_sum img : ℚ) / ((min 80 img.height * img.width : ℕ) : ℚ)
    then [attire_warning] else []
  let w2 : List String :=
    if (3600 : ℚ) < (gray_sq_total img : ℚ) / ((img.width * img.height : ℕ) : ℚ) -
        ((gray_total img : ℚ) / ((img.width * img.height : ℕ) : ℚ)) ^ 2
    then [contrast_warning] else []
  (w1 ++ w2, img)

theorem warning_strings_ne : attire_warning ≠ contrast_warning := by decide

/-- Claim C10: on every 600×600 RGB image `check_warnings` leaves the image
unchanged and returns at most two fixed warning strings; the attire warning is
present exactly when the mean grayscale of the bottom 80 rows (rows 520..599)
exceeds 220, and the contrast warning exactly when the grayscale standard
deviation exceeds 60 (stated as variance > 3600). -/
theorem C10_check_warnings (img : Img) (hw : img.width = 600) (hh : img.height = 600) :
    (check_warnings img).2 = img ∧
    (check_warnings img).1.length ≤ 2 ∧
    (∀ s ∈ (check_warnings img).1, s = attire_warning ∨ s = contrast_warning) ∧
    bottom_sum img = sumN 80 (fun i => sumN 600 (fun x => gray_at img x (520 + i))) ∧
    (attire_warning ∈ (check_warnings img).1 ↔
      (220 : ℚ) < (bottom_sum img : ℚ) / 48000) ∧
    (contrast_warning ∈ (check_warnings img).1 ↔
      (3600 : ℚ) < (gray_sq_total img : ℚ) / 360000 -
        ((gray_total img : ℚ) / 360000) ^ 2) := by
  have hden1 : ((min 80 img.height * img.width : ℕ) : ℚ) = 48000 := by
    rw [hw, hh]; norm_num
  have hden2 : ((img.width * img.height : ℕ) : ℚ) = 360000 := by
    rw [hw, hh]; norm_num
  have hbs : bottom_sum img =
      sumN 80 (fun i => sumN 600 (fun x => gray_at img x (520 + i))) := by
    unfold bottom_sum
    rw [hw, hh]
    norm_num
  refine ⟨rfl, ?_, ?_, hbs, ?_, ?_⟩ <;>
    simp only [check_warnings, hden1, hden2] <;>
    by_cases hA : (220 : ℚ) < (bottom_sum img : ℚ) / 48000 <;>
    by_cases hC : (3600 : ℚ) < (gray_sq_total img : ℚ) / 360000 -
        ((gray_total img : ℚ) / 360000) ^ 2 <;>
    simp [hA, hC, warning_strings_ne, Ne.symm warning_strings_ne]

theorem C10_witness :
    (check_warnings img_white600).2 = img_white600 ∧
    (check_warnings img_white600).1.length ≤ 2 ∧
    (∀ s ∈ (check_warnings img_white600).1,
      s = attire_warning ∨ s = contrast_warning) ∧
    bottom_sum img_white600 =
      sumN 80 (fun i => sumN 600 (fun x => gray_at img_white600 x (520 + i))) ∧
    (attire_warning ∈ (check_warnings img_white600).1 ↔
      (220 : ℚ) < (bottom_sum img_white600 : ℚ) / 48000) ∧
    (contrast_warning ∈ (check_warnings img_white600).1 ↔
      (3600 : ℚ) < (gray_sq_total img_white600 : ℚ) / 360000 -
        ((gray_total img_white600 : ℚ) / 360000) ^ 2) :=
  C10_check_warnings img_white600 rfl rfl
